import Mathlib

/-!
Verification development for the rabbit population simulation
(`rabbitsim.c`, `rabbitsim.h`, `stats.c`, `main.c`).

The C code is shallowly embedded:
* machine integers become `Nat`/`Int` (no value in the program approaches
  an overflow boundary on the paths modelled here);
* `double`/`float` arithmetic on the simulation paths is modelled over `ℚ`
  (the decimal literals `91.63f`, `95.83f`, `1e300` become the corresponding
  rationals; all comparisons and sums the claims touch are on such values),
  and the transcendental survival-rate strategies (Gaussian, exponential)
  are modelled over `ℝ`;
* the PCG32 generator is an external library, so the random stream is
  abstract: a state `Rng` carrying a stream of `genrand_real` outputs
  (`reals`), a stream of `pcg32_boundedrand_r` outputs (`nats`) and a
  position counter that every call advances, mirroring how each C call
  advances the single generator state;
* the dynamically grown array of `s_rabbit` plus the free-index stack
  becomes a `List Rabbit` plus a `List ℕ` used as a stack (head = top);
  `realloc` growth is a memory-layout detail with no observable effect on
  slot contents, so `ensure_capacity` always succeeds in the model.
-/

set_option allowUnsafeReducibility true

attribute [local semireducible] Rat.mul Rat.add Rat.sub Rat.inv Rat.ofScientific

/-- State of the random stream: `reals k` is the value returned by the
`k`-th generator call when that call is `genrand_real`, `nats k` the raw
value when that call is `pcg32_boundedrand_r`; `k` is the number of calls
made so far.  Both kinds of call advance the one shared counter, exactly as
both C calls advance the one `pcg32_random_t` state. -/
structure Rng where
  reals : ℕ → ℚ
  nats : ℕ → ℕ
  k : ℕ

/-- One `genrand_real(rng)` call at the stream level: yields the next real
draw and advances the generator state. -/
def drawReal (r : Rng) : ℚ × Rng :=
  (r.reals r.k, { r with k := r.k + 1 })

/-- One `pcg32_boundedrand_r(rng, n)` call: an integer in `[0, n)` drawn
from the stream, advancing the generator state. -/
def drawBounded (n : ℕ) (r : Rng) : ℕ × Rng :=
  (r.nats r.k % n, { r with k := r.k + 1 })

/-- Value-level model of `genrand_real` (`rabbitsim.c` lines 15-18):
`(double)pcg32_random_r(rng) / (double)UINT32_MAX`, i.e. the 32-bit draw
`n` divided by `4294967295 = 2^32 - 1`.  (At `n = 4294967295` the double
quotient is exactly `1.0`, so the rational model is exact there.) -/
def genrand_real (n : ℕ) : ℚ :=
  (n : ℚ) / 4294967295

/-- `INIT_SRV_RATE` = 91.63 (`rabbitsim.h` line 27). -/
def INIT_SRV_RATE : ℚ := 9163 / 100

/-- `ADULT_SRV_RATE` = 95.83 (`rabbitsim.h` line 28). -/
def ADULT_SRV_RATE : ℚ := 9583 / 100

/-- One agent record, field for field the `s_rabbit` struct
(`rabbitsim.h` lines 59-70).  The C fields that only ever hold 0/1 truth
values (`status`, `mature`, `pregnant`, `survival_check_flag`) become
`Bool`; `sex` stays a number because the code compares it with the literal
1 and uses it as an array index. -/
structure Rabbit where
  sex : ℕ
  status : Bool
  age : ℕ
  mature : Bool
  maturity_age : ℕ
  pregnant : Bool
  nb_litters_y : ℕ
  nb_litters : ℕ
  survival_rate : ℚ
  survival_check_flag : Bool
deriving DecidableEq, Repr, Inhabited

/-- The population pool of one run, the fields of `s_simulation_instance`
(`rabbitsim.h` lines 86-101) that carry simulation state: the agent slots,
the free-index stack (freshest index first, matching the C array used as a
LIFO stack), the lifetime death counter, and the two `sex_distribution`
counters (`.1` = index 0 = females, `.2` = index 1 = males).
`rabbit_count` is `rabbits.length` and `free_count` is
`free_indices.length`; capacity bookkeeping has no observable effect and is
dropped. The logging-only fields are outside the modelled core. -/
structure Sim where
  rabbits : List Rabbit
  free_indices : List ℕ
  dead_rabbit_count : ℕ
  sex_distribution : ℕ × ℕ
deriving DecidableEq, Repr, Inhabited

/-- The zero-initialized `s_simulation_instance sim_instance = {0}` each run
of `multi_simulate` starts from. -/
def emptySim : Sim :=
  { rabbits := [], free_indices := [], dead_rabbit_count := 0,
    sex_distribution := (0, 0) }

/-- `sim->sex_distribution[sex]++` for the sexes the program produces
(`generate_sex` and all call sites pass only 0 or 1). -/
def bumpSex (d : ℕ × ℕ) (sex : ℕ) : ℕ × ℕ :=
  if sex = 1 then (d.1, d.2 + 1) else (d.1 + 1, d.2)

/-- Read of slot `i`, `sim->rabbits[i]`. -/
def getRabbit (sim : Sim) (i : ℕ) : Rabbit :=
  sim.rabbits.getD i default

/-- In-place field update of slot `i`, `sim->rabbits[i].f = ...`. -/
def modifyRabbit (sim : Sim) (i : ℕ) (f : Rabbit → Rabbit) : Sim :=
  { sim with rabbits := sim.rabbits.set i (f (getRabbit sim i)) }

/-- The live population `sim->rabbit_count - sim->free_count` that
`simulate` computes each month. -/
def aliveCount (sim : Sim) : ℕ :=
  sim.rabbits.length - sim.free_indices.length

/-- Every agent record in the pool (live or dead) satisfies `P` — the
form of the data-model invariants of the claims. -/
def EveryRabbit (P : Rabbit → Prop) (sim : Sim) : Prop :=
  ∀ rb ∈ sim.rabbits, P rb

/-- A survival-method instance: `addRate` is the `switch (survival_method)`
in `add_rabbit` (lines 112-123) producing a new agent's survival rate from
the given initial rate, and `updateRate` is the `switch` in
`update_survival_rate` (lines 314-338) producing the (possibly unchanged)
monthly rate from the agent's fields.  The simulation is developed for an
arbitrary instance; `staticMethod` below is the `SURVIVAL_STATIC` default. -/
structure SurvivalModel where
  addRate : ℚ → Rng → ℚ × Rng
  updateRate : Rabbit → Rng → ℚ × Rng

/-- `calculate_survival_rate_static` (lines 346-349): the base rate
unchanged. -/
def calculate_survival_rate_static (base_rate : ℚ) : ℚ :=
  base_rate

/-- `calculate_base_survival_rate` (lines 275-294): immature agents use
`INIT_SRV_RATE`, mature agents `ADULT_SRV_RATE`; from age 120 on,
`10 * ((age - 120) / 12)` (C integer division) is subtracted and the result
floored at 0. -/
def calculate_base_survival_rate (rb : Rabbit) : ℚ :=
  let base_rate : ℚ := if !rb.mature then INIT_SRV_RATE else ADULT_SRV_RATE
  if rb.age ≥ 120 then
    let base_rate := base_rate - 10 * (((rb.age - 120) / 12 : ℕ) : ℚ)
    if base_rate < 0 then 0 else base_rate
  else base_rate

/-- The base survival rate as the spec words it: immature agents use the
initial base rate, mature agents the adult base rate, and an agent aged at
least 120 months has `10 * ((age - 120) / 12)` subtracted, floored at 0. -/
def base_rate_spec (mature : Bool) (age : ℕ) : ℚ :=
  let b : ℚ := if mature then ADULT_SRV_RATE else INIT_SRV_RATE
  if 120 ≤ age then max 0 (b - 10 * (((age - 120) / 12 : ℕ) : ℚ)) else b

/-- The `SURVIVAL_STATIC` method: `add_rabbit` stores
`calculate_survival_rate_static(init_srv_rate)` (line 115, no draw), and
`update_survival_rate` reassigns the rate only under the two guards of its
static branch (lines 316-327), leaving it unchanged otherwise. -/
def staticMethod : SurvivalModel :=
  { addRate := fun init_srv_rate r => (calculate_survival_rate_static init_srv_rate, r),
    updateRate := fun rb r =>
      if (rb.mature ∧ rb.age = rb.maturity_age) ∨ (rb.age % 12 = 0 ∧ rb.age ≥ 120) then
        (calculate_survival_rate_static (calculate_base_survival_rate rb), r)
      else (rb.survival_rate, r) }

/-- `generate_sex` (lines 63-66): 0 when the draw is below one half, else 1. -/
def generate_sex (r : Rng) : ℕ × Rng :=
  let (u, r1) := drawReal r
  (if u < 1/2 then 0 else 1, r1)

/-- `generate_random_age` (lines 73-75): `(int)(genrand_real(rng)*10) + 10`
(the C cast truncates; draws are non-negative, so truncation is `floor`). -/
def generate_random_age (r : Rng) : ℕ × Rng :=
  let (u, r1) := drawReal r
  ((u * 10).floor.toNat + 10, r1)

/-- The field initialization of `add_rabbit` (lines 102-125): every new
agent starts with `maturity_age = 0` and `pregnant = 0` regardless of
`is_mature`, with the survival rate the configured method produced. -/
def init_rabbit_record (is_mature : Bool) (rate : ℚ) (age sex : ℕ) : Rabbit :=
  { sex := sex, status := true, age := age, mature := is_mature,
    maturity_age := 0, pregnant := false, nb_litters_y := 0,
    nb_litters := 0, survival_rate := rate, survival_check_flag := false }

/-- `add_rabbit` (lines 87-128): reuse the most recently freed slot when
one exists, else append; all fields set to their initial values, the
survival rate produced by the configured method from `init_srv_rate`, and
the matching `sex_distribution` counter incremented.  Allocation always
succeeds in the model. -/
def add_rabbit (M : SurvivalModel) (sim : Sim) (r : Rng) (is_mature : Bool)
    (init_srv_rate : ℚ) (age : ℕ) (sex : ℕ) : Sim × Rng :=
  let (rate, r1) := M.addRate init_srv_rate r
  let rb : Rabbit := init_rabbit_record is_mature rate age sex
  match sim.free_indices with
  | i :: rest =>
      ({ sim with rabbits := sim.rabbits.set i rb, free_indices := rest,
                  sex_distribution := bumpSex sim.sex_distribution sex }, r1)
  | [] =>
      ({ sim with rabbits := sim.rabbits ++ [rb],
                  sex_distribution := bumpSex sim.sex_distribution sex }, r1)

/-- `init_2_super_rabbits` (lines 135-139): one mature age-9 rate-100 agent
of each sex, female (sex 0) first. -/
def init_2_super_rabbits (M : SurvivalModel) (sim : Sim) (r : Rng) : Sim × Rng :=
  let (sim1, r1) := add_rabbit M sim r true 100 9 0
  add_rabbit M sim1 r1 true 100 9 1

/-- `init_starting_population` (lines 148-154): `n` mature adults at rate
`ADULT_SRV_RATE`, each with a random age and sex.  (C does not fix the
evaluation order of the two argument draws; the model draws the age first,
then the sex — no claim depends on this order.) -/
def init_starting_population (M : SurvivalModel) (sim : Sim) : ℕ → Rng → Sim × Rng
  | 0, r => (sim, r)
  | n + 1, r =>
      let (age, r1) := generate_random_age r
      let (sex, r2) := generate_sex r1
      let (sim1, r3) := add_rabbit M sim r2 true ADULT_SRV_RATE age sex
      init_starting_population M sim1 n r3

/-- `check_maturity` (lines 188-192): succeed when the draw is at most
`age / 8`. -/
def check_maturity (age : ℕ) (r : Rng) : Bool × Rng :=
  let chance : ℚ := (age : ℚ) / 8
  let (u, r1) := drawReal r
  (u ≤ chance, r1)

/-- `update_maturity` (lines 202-214): a not-yet-mature agent aged at least
5 that passes `check_maturity` becomes mature with `maturity_age` set to
its current age; otherwise nothing changes (and no draw happens below age
5 or once mature). -/
def update_maturity (rb : Rabbit) (r : Rng) : Rabbit × Rng :=
  if rb.mature then (rb, r)
  else if rb.age ≥ 5 then
    let (ok, r1) := check_maturity rb.age r
    (if ok then { rb with mature := true, maturity_age := rb.age } else rb, r1)
  else (rb, r)

/-- `check_survival_rate` (lines 224-227): with the memo flag set the agent
survives without a draw; otherwise it survives iff the draw times 100 is at
most its survival rate. -/
def check_survival_rate (rb : Rabbit) (r : Rng) : Bool × Rng :=
  if rb.survival_check_flag then (true, r)
  else
    let (u, r1) := drawReal r
    (u * 100 ≤ rb.survival_rate, r1)

/-- The field write `r->status = 0` of `kill_rabbit`. -/
def withDead (rb : Rabbit) : Rabbit :=
  { rb with status := false }

/-- The field write `sim->rabbits[i].survival_check_flag = 1` of
`check_survival`. -/
def withFlag (rb : Rabbit) : Rabbit :=
  { rb with survival_check_flag := true }

/-- The field write `sim->rabbits[i].age += 1` of `update_rabbits`. -/
def agedOf (rb : Rabbit) : Rabbit :=
  { rb with age := rb.age + 1 }

/-- `kill_rabbit` (lines 235-244): mark slot `i` dead, push `i` on the free
stack, count the death. -/
def kill_rabbit (sim : Sim) (i : ℕ) : Sim :=
  { sim with rabbits := sim.rabbits.set i (withDead (getRabbit sim i)),
             free_indices := i :: sim.free_indices,
             dead_rabbit_count := sim.dead_rabbit_count + 1 }

/-- `check_survival` (lines 254-267): for a live slot, kill on a failed
survival check, else set the memo flag; dead slots are untouched. -/
def check_survival (sim : Sim) (i : ℕ) (r : Rng) : Sim × Rng :=
  if (getRabbit sim i).status then
    let (ok, r1) := check_survival_rate (getRabbit sim i) r
    if ok then (modifyRabbit sim i withFlag, r1)
    else (kill_rabbit sim i, r1)
  else (sim, r)

/-- `update_survival_rate` (lines 305-339): clear the memo flag, then let
the configured method produce the month's rate from the agent's fields. -/
def update_survival_rate (M : SurvivalModel) (rb : Rabbit) (r : Rng) : Rabbit × Rng :=
  let rb1 := { rb with survival_check_flag := false }
  let (rate, r1) := M.updateRate rb1 r
  ({ rb1 with survival_rate := rate }, r1)

/-- `generate_litters_per_year` (lines 401-417): the yearly litter target
from the fixed cumulative distribution 0.05 / 0.15 / 0.40 / 0.70 / 0.90 /
0.97 / 1 over 3..9. -/
def generate_litters_per_year (r : Rng) : ℕ × Rng :=
  let (rand_val, r1) := drawReal r
  (if rand_val < 1/20 then 3
   else if rand_val < 3/20 then 4
   else if rand_val < 2/5 then 5
   else if rand_val < 7/10 then 6
   else if rand_val < 9/10 then 7
   else if rand_val < 97/100 then 8
   else 9, r1)

/-- `update_litters_per_year` (lines 427-433): only for a mature agent with
`sex == 1` whose months since maturity are a multiple of 12 is the yearly
litter target redrawn. -/
def update_litters_per_year (rb : Rabbit) (r : Rng) : Rabbit × Rng :=
  if rb.sex = 1 ∧ rb.mature ∧ ((rb.age : ℤ) - rb.maturity_age).tmod 12 = 0 then
    let (n, r1) := generate_litters_per_year r
    ({ rb with nb_litters_y := n }, r1)
  else (rb, r)

/-- `can_be_pregnant_this_month` (lines 442-450): with no litters left the
answer is no (and no draw happens); otherwise the agent conceives iff the
draw is at most `remaining_litters / remaining_months`. -/
def can_be_pregnant_this_month (rb : Rabbit) (r : Rng) : Bool × Rng :=
  let remaining_months : ℤ := 12 - ((rb.age : ℤ) - rb.maturity_age).tmod 12
  let remaining_litters : ℤ := (rb.nb_litters_y : ℤ) - rb.nb_litters
  if remaining_litters ≤ 0 then (false, r)
  else
    let (u, r1) := drawReal r
    (u ≤ (remaining_litters : ℚ) / (remaining_months : ℚ), r1)

/-- `give_birth` (lines 461-472): a pregnant agent delivers — pregnancy
cleared, `nb_litters` incremented, litter size `3 + bounded(4)`; a
non-pregnant agent delivers nothing and draws nothing. -/
def give_birth (rb : Rabbit) (r : Rng) : Rabbit × ℕ × Rng :=
  if rb.pregnant then
    let (extra, r1) := drawBounded 4 r
    ({ rb with pregnant := false, nb_litters := rb.nb_litters + 1 }, 3 + extra, r1)
  else (rb, 0, r)

/-- `check_pregnancy` (lines 481-487): only an agent with `sex == 1` is
tested (short-circuit `&&`), and becomes pregnant when
`can_be_pregnant_this_month` succeeds. -/
def check_pregnancy (rb : Rabbit) (r : Rng) : Rabbit × Rng :=
  if rb.sex = 1 then
    let (ok, r1) := can_be_pregnant_this_month rb r
    (if ok then { rb with pregnant := true } else rb, r1)
  else (rb, r)

/-- `create_new_generation` (lines 497-507): add `nb_new_born` newborns —
random sex, immature, `INIT_SRV_RATE`, age 0 (the sex draw precedes the
`add_rabbit` body, as in C argument evaluation). -/
def create_new_generation (M : SurvivalModel) (sim : Sim) : ℕ → Rng → Sim × Rng
  | 0, r => (sim, r)
  | n + 1, r =>
      let (sex, r1) := generate_sex r
      let (sim1, r2) := add_rabbit M sim r1 false INIT_SRV_RATE 0 sex
      create_new_generation M sim1 n r2

/-- Steps 3-7 of the per-agent loop body of `update_rabbits` (lines
532-536), which only read and write the agent's own record:
`update_survival_rate`, `update_maturity`, `update_litters_per_year`,
`give_birth` (whose litter size is returned) and `check_pregnancy`, in that
order.  The C code writes `sim->rabbits[i]` back after each call and no
other slot is read in between, so the sequence is the composition of the
per-agent transitions. -/
def monthRest (M : SurvivalModel) (rb : Rabbit) (r : Rng) : Rabbit × ℕ × Rng :=
  let (rb3, r3) := update_survival_rate M rb r
  let (rb4, r4) := update_maturity rb3 r3
  let (rb5, r5) := update_litters_per_year rb4 r4
  let (rb6, born, r6) := give_birth rb5 r5
  let (rb7, r7) := check_pregnancy rb6 r6
  (rb7, born, r7)

/-- Body of the per-agent loop in `update_rabbits` (lines 526-537): a dead
slot is skipped; a live agent ages one month, goes through
`check_survival` (which may kill it via `kill_rabbit`), and then — with no
re-test of `status` — through the remaining five steps (`monthRest`),
whose result is written back to its slot. -/
def rabbitMonthStep (M : SurvivalModel) (sim : Sim) (i : ℕ) (r : Rng) :
    Sim × ℕ × Rng :=
  if (getRabbit sim i).status = false then (sim, 0, r)
  else
    let sim1 := modifyRabbit sim i agedOf
    let (sim2, r2) := check_survival sim1 i r
    let (rb7, born, r7) := monthRest M (getRabbit sim2 i) r2
    ({ sim2 with rabbits := sim2.rabbits.set i rb7 }, born, r7)

/-- The `for (i = 0; i < sim->rabbit_count; ++i)` loop of `update_rabbits`:
`fuel` slots remain starting at index `i`, `born` accumulates
`nb_new_born`.  (`rabbit_count` only changes in `add_rabbit`, which the
loop never calls, so the bound is the entry count.) -/
def update_rabbits_loop (M : SurvivalModel) : ℕ → ℕ → Sim → ℕ → Rng → Sim × ℕ × Rng
  | _, 0, sim, born, r => (sim, born, r)
  | i, fuel + 1, sim, born, r =>
      let (sim1, nb, r1) := rabbitMonthStep M sim i r
      update_rabbits_loop M (i + 1) fuel sim1 (born + nb) r1

/-- `update_rabbits` (lines 517-539): run the per-agent loop over all
current slots, then insert the month's newborns. -/
def update_rabbits (M : SurvivalModel) (sim : Sim) (r : Rng) : Sim × Rng :=
  let (sim1, born, r1) := update_rabbits_loop M 0 sim.rabbits.length sim 0 r
  create_new_generation M sim1 born r1

/-- The per-run statistics `simulate` (lines 738-843) accumulates across
months before packing its result. -/
structure LoopAcc where
  peak_population : ℕ
  peak_month : ℕ
  min_population : ℕ
  min_month : ℕ
  population_sum : ℕ
  actual_months : ℕ
  extinction_month : ℕ
deriving DecidableEq, Repr

/-- Entry values of the month loop of `simulate`: zeros except the
`INT32_MAX` sentinel that seeds the minimum search. -/
def initLoopAcc : LoopAcc :=
  { peak_population := 0, peak_month := 0, min_population := 2147483647,
    min_month := 0, population_sum := 0, actual_months := 0,
    extinction_month := 0 }

/-- The per-month statistics update of `simulate` (lines 776-791): track
the peak, the post-month-0 minimum, the population sum, and set
`actual_months = m + 1`. -/
def acc_month_update (acc : LoopAcc) (m current_alive : ℕ) : LoopAcc :=
  let acc1 :=
    if current_alive > acc.peak_population then
      { acc with peak_population := current_alive, peak_month := m }
    else acc
  let acc2 :=
    if 0 < m ∧ current_alive < acc1.min_population then
      { acc1 with min_population := current_alive, min_month := m }
    else acc1
  { acc2 with
      population_sum := acc2.population_sum + current_alive,
      actual_months := m + 1 }

/-- The `for (m = 0; m < months; ++m)` loop of `simulate` (lines 762-800):
`fuel` months remain and `m` is the current month.  Each month: on
extinction (`free_count == rabbit_count`) record the month and stop;
otherwise update the monthly statistics, then run `update_rabbits`. -/
def simulate_loop (M : SurvivalModel) : ℕ → ℕ → Sim → Rng → LoopAcc →
    Sim × Rng × LoopAcc
  | 0, _, sim, r, acc => (sim, r, acc)
  | fuel + 1, m, sim, r, acc =>
      let current_alive := aliveCount sim
      if sim.free_indices.length = sim.rabbits.length then
        (sim, r, { acc with extinction_month := m, actual_months := m })
      else
        let (sim1, r1) := update_rabbits M sim r
        simulate_loop M fuel (m + 1) sim1 r1 (acc_month_update acc m current_alive)

/-- The result record of one run, the `s_simulation_results` struct
(`rabbitsim.h` lines 110-124); the two percentages are `float` in C and
modelled over `ℚ`. -/
structure s_simulation_results where
  total_dead : ℕ
  final_alive : ℕ
  extinction_month : ℕ
  final_males : ℕ
  final_females : ℕ
  peak_population : ℕ
  peak_population_month : ℕ
  min_population : ℕ
  min_population_month : ℕ
  total_population_sum : ℕ
  months_simulated : ℕ
  male_percentage : ℚ
  female_percentage : ℚ
deriving DecidableEq, Repr

/-- The population initialization of `simulate` (lines 752-759): two
founders when `initial_population_nb == 2`, random adults otherwise. -/
def sim_init_state (M : SurvivalModel) (initial_population_nb : ℕ)
    (sim : Sim) (r : Rng) : Sim × Rng :=
  if initial_population_nb = 2 then init_2_super_rabbits M sim r
  else init_starting_population M sim initial_population_nb r

/-- One month of simulated time as a transformer of (pool, stream) — the
trajectory `simulate`'s loop walks: `monthIter M n` is `n` applications of
`update_rabbits`. -/
def monthIter (M : SurvivalModel) : ℕ → Sim × Rng → Sim × Rng
  | 0, p => p
  | n + 1, p => monthIter M n (update_rabbits M p.1 p.2)

/-- The extinction test of `simulate` (line 768):
`sim->free_count == sim->rabbit_count`, i.e. the live count is zero. -/
def isExtinct (s : Sim) : Prop :=
  s.free_indices.length = s.rabbits.length

instance (s : Sim) : Decidable (isExtinct s) := by
  unfold isExtinct
  infer_instance

/-- `simulate` (lines 738-843): initialize the population, run the month
loop, then pack the result record — `final_males`/`final_females` are read
straight from `sim->sex_distribution` (lines 808-809). -/
def simulate (M : SurvivalModel) (months initial_population_nb : ℕ)
    (sim : Sim) (r : Rng) : s_simulation_results × Sim × Rng :=
  let (sim1, r1) := sim_init_state M initial_population_nb sim r
  let (sim2, r2, acc) := simulate_loop M months 0 sim1 r1 initLoopAcc
  let final_alive := aliveCount sim2
  let keepMin : Bool :=
    acc.min_population ≠ 2147483647 ∧ acc.min_population < initial_population_nb
  let results : s_simulation_results :=
    { total_dead := sim2.dead_rabbit_count,
      final_alive := final_alive,
      extinction_month := acc.extinction_month,
      final_males := sim2.sex_distribution.2,
      final_females := sim2.sex_distribution.1,
      peak_population := acc.peak_population,
      peak_population_month := acc.peak_month,
      min_population := if keepMin then acc.min_population else initial_population_nb,
      min_population_month := if keepMin then acc.min_month else 0,
      total_population_sum := acc.population_sum,
      months_simulated := acc.actual_months,
      male_percentage :=
        if final_alive > 0 then (sim2.sex_distribution.2 : ℚ) * 100 / final_alive else 0,
      female_percentage :=
        if final_alive > 0 then (sim2.sex_distribution.1 : ℚ) * 100 / final_alive else 0 }
  (results, sim2, r2)

/-- One iteration of the parallel loop of `multi_simulate` (lines 888-906):
run `i` gets a zero-initialized pool and a generator seeded by
`pcg32_srandom_r(&rng, base_seed, i)`.  PCG seeding is external library
code, so it enters the model as an abstract seeding function from
`(base_seed, run_index)` to a stream state. -/
def run_single (M : SurvivalModel) (seedFn : ℕ → ℕ → Rng)
    (months initial_population_nb base_seed i : ℕ) : s_simulation_results :=
  (simulate M months initial_population_nb emptySim (seedFn base_seed i)).1

/-- The batch of runs `multi_simulate` executes: the OpenMP loop body is
independent per index (own pool, own generator), so any schedule is a list
of run indices and the batch is the per-index result map. -/
def multi_simulate (M : SurvivalModel) (seedFn : ℕ → ℕ → Rng)
    (months initial_population_nb base_seed : ℕ)
    (runs : List ℕ) : List s_simulation_results :=
  runs.map (run_single M seedFn months initial_population_nb base_seed)

/-- The per-run summary `s_sim_result` that `simulate_stats` (`stats.c`
lines 5-34) produces and `stats_acc_add` absorbs: the final alive and dead
counts as `double` (integer counts, so the `ℚ` model of the double
arithmetic is exact) and the extinction flag. -/
structure s_sim_result where
  alive_final : ℚ
  dead_final : ℚ
  extinct : Bool
deriving DecidableEq, Repr

/-- The statistics accumulator `s_stats_acc` of `stats.c`: running sums,
sums of squares, minima and maxima for the alive and dead metrics, the
extinction count and the number of absorbed results. -/
structure s_stats_acc where
  sum_alive : ℚ
  sumsq_alive : ℚ
  min_alive : ℚ
  max_alive : ℚ
  sum_dead : ℚ
  sumsq_dead : ℚ
  min_dead : ℚ
  max_dead : ℚ
  nb_extinctions : ℕ
  n : ℕ
deriving DecidableEq, Repr

/-- `stats_acc_init` (`stats.c` lines 37-51): sums zero, minima at the
`1e300` sentinel, maxima at `-1e300`. -/
def stats_acc_init : s_stats_acc :=
  { sum_alive := 0, sumsq_alive := 0, min_alive := 10 ^ 300, max_alive := -(10 ^ 300),
    sum_dead := 0, sumsq_dead := 0, min_dead := 10 ^ 300, max_dead := -(10 ^ 300),
    nb_extinctions := 0, n := 0 }

/-- `stats_acc_add` (`stats.c` lines 54-71): absorb one run summary. -/
def stats_acc_add (st : s_stats_acc) (r : s_sim_result) : s_stats_acc :=
  { sum_alive := st.sum_alive + r.alive_final,
    sumsq_alive := st.sumsq_alive + r.alive_final * r.alive_final,
    min_alive := if r.alive_final < st.min_alive then r.alive_final else st.min_alive,
    max_alive := if r.alive_final > st.max_alive then r.alive_final else st.max_alive,
    sum_dead := st.sum_dead + r.dead_final,
    sumsq_dead := st.sumsq_dead + r.dead_final * r.dead_final,
    min_dead := if r.dead_final < st.min_dead then r.dead_final else st.min_dead,
    max_dead := if r.dead_final > st.max_dead then r.dead_final else st.max_dead,
    nb_extinctions := if r.extinct then st.nb_extinctions + 1 else st.nb_extinctions,
    n := st.n + 1 }

/-- `stats_acc_merge` (`stats.c` lines 74-88): combine a partial
accumulator `src` into `dst`. -/
def stats_acc_merge (dst src : s_stats_acc) : s_stats_acc :=
  { sum_alive := dst.sum_alive + src.sum_alive,
    sumsq_alive := dst.sumsq_alive + src.sumsq_alive,
    min_alive := if src.min_alive < dst.min_alive then src.min_alive else dst.min_alive,
    max_alive := if src.max_alive > dst.max_alive then src.max_alive else dst.max_alive,
    sum_dead := dst.sum_dead + src.sum_dead,
    sumsq_dead := dst.sumsq_dead + src.sumsq_dead,
    min_dead := if src.min_dead < dst.min_dead then src.min_dead else dst.min_dead,
    max_dead := if src.max_dead > dst.max_dead then src.max_dead else dst.max_dead,
    nb_extinctions := dst.nb_extinctions + src.nb_extinctions,
    n := dst.n + src.n }

/-- An accumulator built by absorbing a list of run summaries, in order,
into a fresh `stats_acc_init` — the sequential baseline of the merge
claims. -/
def stats_acc_from (rs : List s_sim_result) : s_stats_acc :=
  rs.foldl stats_acc_add stats_acc_init

/-- `calculate_survival_rate_exponential` (lines 380-394) over `ℝ` (it
uses `log` and `exp`): `lambda = 1/(base_rate/10)`,
`x = -log u / lambda`, result `100 * (1 - exp (-x))` clamped into
`[0, 100]` by the two successive `if`s. -/
noncomputable def calculate_survival_rate_exponential (base_rate u : ℝ) : ℝ :=
  let lambda : ℝ := 1 / (base_rate / 10)
  let result : ℝ := -Real.log u / lambda
  let result : ℝ := 100 * (1 - Real.exp (-result))
  let result : ℝ := if result < 0 then 0 else result
  if result > 100 then 100 else result

/-! ## Concrete streams used by the closed theorems -/

/-- The all-zero stream: every survival draw is 0 (so every live agent
survives), every sex draw yields 0, every bounded draw yields 0. -/
def rngZero : Rng := ⟨fun _ => 0, fun _ => 0, 0⟩

/-- A stream driving a five-month founder run: draw 6 (the male founder's
yearly litter draw at month 2) is 0.5, giving a target of 6 litters; draw 7
makes him pregnant; draws 11 and 17 (0.99) fail the later pregnancy tests;
draws 18-20 (0.95) kill the three newborns at month 4; every other draw is
0. -/
def rngC4 : Rng :=
  ⟨fun k => if k = 6 then 1/2 else if k = 11 ∨ k = 17 then 99/100
            else if 18 ≤ k then 95/100 else 0,
   fun _ => 0, 0⟩

/-- A one-agent pool holding a pregnant mature male-labelled agent with
survival rate 50: the concrete state of the C1 closed theorems. -/
def rbC1 : Rabbit :=
  { sex := 1, status := true, age := 20, mature := true, maturity_age := 5,
    pregnant := true, nb_litters_y := 1, nb_litters := 0,
    survival_rate := 50, survival_check_flag := false }

/-- The pool holding exactly `rbC1`. -/
def simC1 : Sim :=
  { rabbits := [rbC1], free_indices := [], dead_rabbit_count := 0,
    sex_distribution := (0, 1) }

/-- A stream whose every real draw is 0.9, failing every survival check
against a rate of 50 (0.9 x 100 = 90 > 50), with bounded draws 0. -/
def rngC1 : Rng := ⟨fun _ => 9/10, fun _ => 0, 0⟩

/-! ## C5 — the random-real contract -/

/-- C5: the claim says `genrand_real` always returns a value in `[0,1)`,
as its own doc comment states.  The code divides the 32-bit draw by
`UINT32_MAX = 4294967295` instead of `2^32`, so at the maximal draw
4294967295 (a value `pcg32_random_r` can return) the quotient is exactly 1:
the result is not strictly below 1.  This evaluates the code at that
failing input. -/
theorem C5_genrand_real_reaches_one :
    genrand_real 4294967295 = 1 ∧ ¬ genrand_real 4294967295 < 1 := by
  norm_num [genrand_real]

/-! ## C4 — final per-sex counts -/

/-- C4: the claim says `final_males`/`final_females` are the per-sex counts
of agents alive at the end of the run.  But `kill_rabbit` never decrements
`sex_distribution`, so those fields count every agent ever added.  Code-bug
evaluation at a failing input: a five-month static-strategy founder run in
which the male founder sires a litter of three at month 3 and all three
newborns die at month 4.  The run ends with 2 live agents, yet the result
reports 1 male and 4 females — and a female percentage of 200 percent of
the final population, contradicting the result struct's own documentation
("Number of males at simulation end", "Percentage of females in final
population"). -/
theorem C4_final_sex_counts_diverge :
    (simulate staticMethod 5 2 emptySim rngC4).1.final_alive = 2 ∧
    (simulate staticMethod 5 2 emptySim rngC4).1.final_males = 1 ∧
    (simulate staticMethod 5 2 emptySim rngC4).1.final_females = 4 ∧
    (simulate staticMethod 5 2 emptySim rngC4).1.final_males +
      (simulate staticMethod 5 2 emptySim rngC4).1.final_females ≠
      (simulate staticMethod 5 2 emptySim rngC4).1.final_alive ∧
    (simulate staticMethod 5 2 emptySim rngC4).1.female_percentage = 200 := by
  decide

/-! ## C6 — the monthly survival-rate refresh -/

/-- C6 counterexample: the claim says that under the static strategy every
surviving agent's `survival_rate` equals the maturity/age-derived base rate
every month.  After one static monthly update of the founder population
(all-zero draws, so both founders survive), the slot-0 founder is mature
and aged 10, its base rate is `ADULT_SRV_RATE = 95.83` — but its stored
`survival_rate` is still the founder value 100, because the static branch
of `update_survival_rate` only reassigns the rate under its two guards. -/
theorem C6_static_rate_not_refreshed :
    ((update_rabbits staticMethod
        (init_2_super_rabbits staticMethod emptySim rngZero).1 rngZero).1.rabbits.getD 0
        default).survival_rate = 100 ∧
    calculate_base_survival_rate
      ((update_rabbits staticMethod
        (init_2_super_rabbits staticMethod emptySim rngZero).1 rngZero).1.rabbits.getD 0
        default) = 9583 / 100 ∧
    (100 : ℚ) ≠ 9583 / 100 := by
  decide

/-- Clamping at 0 written with `if x < 0`, as the code does, agrees with
`max 0`. -/
theorem if_lt_zero_eq_max (x : ℚ) : (if x < 0 then 0 else x) = max 0 x := by
  rcases lt_or_le x 0 with h | h
  · rw [if_pos h, max_eq_left h.le]
  · rw [if_neg (not_lt.mpr h), max_eq_right h]

/-- Variant of `if_lt_zero_eq_max` with the condition written as `a < b`. -/
theorem if_lt_clamp (a b : ℚ) : (if a < b then (0:ℚ) else a - b) = max 0 (a - b) := by
  rcases lt_or_le a b with h | h
  · rw [if_pos h, max_eq_left (by linarith)]
  · rw [if_neg (not_lt.mpr h), max_eq_right (by linarith)]

/-- The base survival rate ignores the memo flag, so clearing the flag
first (as `update_survival_rate` does) changes nothing. -/
theorem calculate_base_survival_rate_flag (rb : Rabbit) :
    calculate_base_survival_rate { rb with survival_check_flag := false } =
      calculate_base_survival_rate rb := rfl

/-- Closed form of the static branch of `update_survival_rate`: the memo
flag is cleared, the stream is untouched, and the stored rate is reassigned
(to the base rate) exactly under the two guards of lines 316-327. -/
theorem update_survival_rate_static_eq (rb : Rabbit) (r : Rng) :
    update_survival_rate staticMethod rb r =
      ({ rb with survival_check_flag := false,
                 survival_rate :=
                   if (rb.mature ∧ rb.age = rb.maturity_age) ∨ (rb.age % 12 = 0 ∧ rb.age ≥ 120)
                   then calculate_base_survival_rate rb
                   else rb.survival_rate }, r) := by
  unfold update_survival_rate staticMethod
  dsimp only
  split <;> rename_i h
  · simp [calculate_survival_rate_static, calculate_base_survival_rate_flag]
  · rfl

/-- C6 amended: the base-rate formula of the claim is exactly
`calculate_base_survival_rate`, and every monthly update clears the
survival memo flag — but under the static strategy the stored
`survival_rate` is reassigned (to the base rate) only when the agent is
mature with `age = maturity_age`, or is aged at least 120 months at a
12-month boundary; in every other month it is left unchanged, so it need
not equal the base rate. -/
theorem C6_amended_static_rate_update :
    (∀ rb : Rabbit, calculate_base_survival_rate rb = base_rate_spec rb.mature rb.age) ∧
    (∀ (rb : Rabbit) (r : Rng),
      (update_survival_rate staticMethod rb r).1.survival_check_flag = false ∧
      (update_survival_rate staticMethod rb r).2 = r ∧
      (update_survival_rate staticMethod rb r).1.survival_rate =
        (if (rb.mature ∧ rb.age = rb.maturity_age) ∨ (rb.age % 12 = 0 ∧ rb.age ≥ 120)
         then calculate_base_survival_rate rb
         else rb.survival_rate)) := by
  constructor
  · intro rb
    by_cases hage : 120 ≤ rb.age <;> cases h : rb.mature <;>
      simp [calculate_base_survival_rate, base_rate_spec, h, hage, if_lt_zero_eq_max,
        if_lt_clamp]
  · intro rb r
    rw [update_survival_rate_static_eq]
    exact ⟨rfl, rfl, rfl⟩

/-! ## C7 — the founder scenario -/

/-- C7 counterexample: the claim asserts the two founders carry
`survival_rate` 100 *regardless of the configured survival strategy*.  But
`add_rabbit` pushes the initial rate 100 through the configured strategy
(lines 112-123), and under `SURVIVAL_EXPONENTIAL` the stored rate is
`calculate_survival_rate_exponential(100, u)`, which differs from 100 at
the producible draw `u = 2147483648/4294967295` (indeed at every draw,
since `100·(1 − e^(−x)) < 100`). -/
theorem C7_counterexample_exponential_founder_rate :
    calculate_survival_rate_exponential 100 (2147483648 / 4294967295) ≠ 100 := by
  simp only [calculate_survival_rate_exponential]
  set v : ℝ :=
    100 * (1 - Real.exp (-(-Real.log ((2147483648 : ℝ) / 4294967295) / (1 / (100 / 10))))) with hv
  have hlt : v < 100 := by
    have h := Real.exp_pos (-(-Real.log ((2147483648 : ℝ) / 4294967295) / (1 / (100 / 10))))
    rw [hv]
    nlinarith
  by_cases h0 : v < 0
  · rw [if_pos h0, if_neg (by norm_num)]
    norm_num
  · rw [if_neg h0, if_neg (not_lt.mpr hlt.le)]
    exact ne_of_lt hlt

/-- C7 amended: for every run configured with `initial_population = 2`
(`simulate` then initializes through `init_2_super_rabbits`), the month-0
population consists of exactly 2 agents, one of each sex, both mature, both
aged 9 — under every survival strategy; and under the static strategy (the
program default) both carry `survival_rate` 100.  Under a non-static
strategy the stored rate is the strategy applied to the base 100 and need
not be 100. -/
theorem C7_amended_founders :
    (∀ (M : SurvivalModel) (r : Rng),
      ∃ q0 q1 : ℚ,
        (init_2_super_rabbits M emptySim r).1.rabbits =
          [⟨0, true, 9, true, 0, false, 0, 0, q0, false⟩,
           ⟨1, true, 9, true, 0, false, 0, 0, q1, false⟩]) ∧
    (∀ r : Rng,
      (init_2_super_rabbits staticMethod emptySim r).1.rabbits =
        [⟨0, true, 9, true, 0, false, 0, 0, 100, false⟩,
         ⟨1, true, 9, true, 0, false, 0, 0, 100, false⟩]) := by
  constructor
  · intro M r
    rcases h1 : M.addRate 100 r with ⟨q0, r1⟩
    rcases h2 : M.addRate 100 r1 with ⟨q1, r2⟩
    refine ⟨q0, q1, ?_⟩
    simp [init_2_super_rabbits, add_rabbit, init_rabbit_record, emptySim, h1, h2, bumpSex]
  · intro r
    rfl

/-! ## C2 — statistics accumulator merge -/

/-- The `if src < dst then src else dst` combine of `stats_acc_merge` and
the `if r < st then r else st` combine of `stats_acc_add` are `min`. -/
theorem if_lt_min (a b : ℚ) : (if b < a then b else a) = min a b := by
  rcases lt_or_le b a with h | h
  · rw [if_pos h, min_eq_right h.le]
  · rw [if_neg (not_lt.mpr h), min_eq_left h]

/-- The `if src > dst then src else dst` combine of `stats_acc_merge` and
the `if r > st then r else st` combine of `stats_acc_add` are `max`. -/
theorem if_gt_max (a b : ℚ) : (if b > a then b else a) = max a b := by
  rcases lt_or_le a b with h | h
  · rw [if_pos h, max_eq_right h.le]
  · rw [if_neg (not_lt.mpr h), max_eq_left h]

/-- `stats_acc_merge` in sum/min/max normal form. -/
theorem stats_acc_merge_eq (a b : s_stats_acc) :
    stats_acc_merge a b =
      { sum_alive := a.sum_alive + b.sum_alive,
        sumsq_alive := a.sumsq_alive + b.sumsq_alive,
        min_alive := min a.min_alive b.min_alive,
        max_alive := max a.max_alive b.max_alive,
        sum_dead := a.sum_dead + b.sum_dead,
        sumsq_dead := a.sumsq_dead + b.sumsq_dead,
        min_dead := min a.min_dead b.min_dead,
        max_dead := max a.max_dead b.max_dead,
        nb_extinctions := a.nb_extinctions + b.nb_extinctions,
        n := a.n + b.n } := by
  simp [stats_acc_merge, if_lt_min, if_gt_max]

/-- `stats_acc_add` in sum/min/max normal form. -/
theorem stats_acc_add_eq (st : s_stats_acc) (r : s_sim_result) :
    stats_acc_add st r =
      { sum_alive := st.sum_alive + r.alive_final,
        sumsq_alive := st.sumsq_alive + r.alive_final * r.alive_final,
        min_alive := min st.min_alive r.alive_final,
        max_alive := max st.max_alive r.alive_final,
        sum_dead := st.sum_dead + r.dead_final,
        sumsq_dead := st.sumsq_dead + r.dead_final * r.dead_final,
        min_dead := min st.min_dead r.dead_final,
        max_dead := max st.max_dead r.dead_final,
        nb_extinctions := if r.extinct then st.nb_extinctions + 1 else st.nb_extinctions,
        n := st.n + 1 } := by
  simp [stats_acc_add, if_lt_min, if_gt_max]

/-- `stats_acc_merge` is associative on arbitrary accumulators. -/
theorem stats_acc_merge_assoc (a b c : s_stats_acc) :
    stats_acc_merge (stats_acc_merge a b) c = stats_acc_merge a (stats_acc_merge b c) := by
  simp [stats_acc_merge_eq, add_assoc, min_assoc, max_assoc, Nat.add_assoc]

/-- Absorbing one result into the right operand commutes with merging. -/
theorem stats_acc_merge_add (a b : s_stats_acc) (r : s_sim_result) :
    stats_acc_merge a (stats_acc_add b r) = stats_acc_add (stats_acc_merge a b) r := by
  cases hr : r.extinct <;>
    simp [stats_acc_merge_eq, stats_acc_add_eq, hr, add_assoc, min_assoc, max_assoc,
      Nat.add_assoc]

/-- Folding further results over a merge absorbs them into the right
operand. -/
theorem stats_acc_foldl_merge (l : List s_sim_result) (a b : s_stats_acc) :
    List.foldl stats_acc_add (stats_acc_merge a b) l =
      stats_acc_merge a (List.foldl stats_acc_add b l) := by
  induction l generalizing b with
  | nil => rfl
  | cons r t ih => simp [List.foldl_cons, ← stats_acc_merge_add, ih]

/-- An accumulator built from results keeps its minima below and its maxima
above the `±1e300` sentinels of `stats_acc_init`. -/
theorem stats_acc_from_bounds (l : List s_sim_result) :
    (stats_acc_from l).min_alive ≤ 10 ^ 300 ∧ -(10 ^ 300) ≤ (stats_acc_from l).max_alive ∧
    (stats_acc_from l).min_dead ≤ 10 ^ 300 ∧ -(10 ^ 300) ≤ (stats_acc_from l).max_dead := by
  rw [stats_acc_from]
  induction l using List.reverseRecOn with
  | nil => simp [stats_acc_init]
  | append_singleton t r ih =>
      rw [List.foldl_append]
      simp only [List.foldl_cons, List.foldl_nil, stats_acc_add_eq]
      exact ⟨le_trans (min_le_left _ _) ih.1, le_trans ih.2.1 (le_max_left _ _),
        le_trans (min_le_left _ _) ih.2.2.1, le_trans ih.2.2.2 (le_max_left _ _)⟩

/-- Merging a freshly initialized accumulator into one whose extrema
respect the sentinels changes nothing. -/
theorem stats_acc_merge_init_right (a : s_stats_acc)
    (h1 : a.min_alive ≤ 10 ^ 300) (h2 : -(10 ^ 300) ≤ a.max_alive)
    (h3 : a.min_dead ≤ 10 ^ 300) (h4 : -(10 ^ 300) ≤ a.max_dead) :
    stats_acc_merge a stats_acc_init = a := by
  simp [stats_acc_merge_eq, stats_acc_init, min_eq_left h1, max_eq_left h2,
    min_eq_left h3, max_eq_left h4]

/-- Splitting a result list anywhere and merging the two partial
accumulators equals absorbing the whole list sequentially. -/
theorem stats_acc_from_append (l1 l2 : List s_sim_result) :
    stats_acc_from (l1 ++ l2) = stats_acc_merge (stats_acc_from l1) (stats_acc_from l2) := by
  rcases stats_acc_from_bounds l1 with ⟨h1, h2, h3, h4⟩
  have e2 : stats_acc_from l2 = List.foldl stats_acc_add stats_acc_init l2 := rfl
  have e12 : stats_acc_from (l1 ++ l2) = List.foldl stats_acc_add (stats_acc_from l1) l2 := by
    rw [stats_acc_from, List.foldl_append]
    rfl
  rw [e12, e2, ← stats_acc_foldl_merge, stats_acc_merge_init_right _ h1 h2 h3 h4]

/-- C2: for any partition of a fixed list of run results into three shares
`a`, `b`, `c`, each absorbed into its own initialized accumulator,
`(A merge B) merge C` equals `A merge (B merge C)`, and both equal the
accumulator obtained by absorbing all the results sequentially into one
initialized accumulator.  The equality holds for the whole accumulator
record, so every statistic `stats_print_report` derives from it — mean,
variance, min, max and the extinction count — coincides as well.  (The
double arithmetic of `stats.c` is modelled over `ℚ`; the absorbed values
are integer counts cast to double, on which these sums are exact.) -/
theorem C2_merge_assoc_and_sequential (a b c : List s_sim_result) :
    stats_acc_merge (stats_acc_merge (stats_acc_from a) (stats_acc_from b)) (stats_acc_from c) =
      stats_acc_merge (stats_acc_from a) (stats_acc_merge (stats_acc_from b) (stats_acc_from c)) ∧
    stats_acc_merge (stats_acc_merge (stats_acc_from a) (stats_acc_from b)) (stats_acc_from c) =
      stats_acc_from (a ++ b ++ c) := by
  refine ⟨stats_acc_merge_assoc _ _ _, ?_⟩
  rw [stats_acc_from_append, stats_acc_from_append]

/-! ## C9 — determinism and independence of runs -/

/-- C9: the result of run index `i` in any batch is
`run_single M seedFn months pop base i`, a pure function of the survival
strategy, the seeding function, `(months, initial_population, base_seed)`
and the run index alone: wherever `i` occurs in whatever batch `runs`, the
batch's result at that position is that same value.  Two Single-Run
Simulators constructed with identical `(base_seed, run_index, months,
initial_population)` under the same strategy therefore produce identical
Run Results, independent of which other runs execute or in what order —
each OpenMP iteration of `multi_simulate` uses its own zeroed pool and its
own generator seeded by `pcg32_srandom_r(&rng, base_seed, i)`, with no
shared mutable simulation state. -/
theorem C9_run_result_depends_only_on_run_inputs (M : SurvivalModel)
    (seedFn : ℕ → ℕ → Rng) (months pop base : ℕ) (runs : List ℕ) (j i : ℕ)
    (h : runs[j]? = some i) :
    (multi_simulate M seedFn months pop base runs)[j]? =
      some (run_single M seedFn months pop base i) := by
  simp [multi_simulate, List.getElem?_map, h]

/-- Witness for C9 at a concrete batch: in the schedule `[5, 3, 9]`, the
result at position 1 is the pure per-run value for run index 3. -/
theorem C9_witness_concrete_batch :
    (multi_simulate staticMethod (fun _ _ => rngZero) 4 2 77 [5, 3, 9])[1]? =
      some (run_single staticMethod (fun _ _ => rngZero) 4 2 77 3) :=
  C9_run_result_depends_only_on_run_inputs staticMethod (fun _ _ => rngZero) 4 2 77
    [5, 3, 9] 1 3 (by decide)

/-! ## Pool and per-agent step lemmas shared by the invariant and step claims -/

theorem getD_set_self {α : Type} : ∀ (l : List α) (i : ℕ) (a d : α), i < l.length →
    (l.set i a).getD i d = a
  | [], i, a, d, h => absurd h (by simp)
  | x :: t, 0, a, d, _ => rfl
  | x :: t, n + 1, a, d, h => getD_set_self t n a d (Nat.lt_of_succ_lt_succ h)

theorem set_set_same {α : Type} : ∀ (l : List α) (i : ℕ) (a b : α),
    (l.set i a).set i b = l.set i b
  | [], _, _, _ => rfl
  | _ :: _, 0, _, _ => rfl
  | x :: t, n + 1, a, b => congrArg (x :: ·) (set_set_same t n a b)

theorem check_survival_surv (sim : Sim) (i : ℕ) (r : Rng)
    (hst : (getRabbit sim i).status = true)
    (hok : (check_survival_rate (getRabbit sim i) r).1 = true) :
    check_survival sim i r =
      ({ sim with rabbits := sim.rabbits.set i (withFlag (getRabbit sim i)) },
       (check_survival_rate (getRabbit sim i) r).2) := by
  unfold check_survival
  rcases hp : check_survival_rate (getRabbit sim i) r with ⟨ok, r2⟩
  rw [hp] at hok
  subst hok
  rw [hst]
  simp [modifyRabbit, getRabbit, hp]

theorem check_survival_kill (sim : Sim) (i : ℕ) (r : Rng)
    (hst : (getRabbit sim i).status = true)
    (hok : (check_survival_rate (getRabbit sim i) r).1 = false) :
    check_survival sim i r =
      (kill_rabbit sim i, (check_survival_rate (getRabbit sim i) r).2) := by
  unfold check_survival
  rcases hp : check_survival_rate (getRabbit sim i) r with ⟨ok, r2⟩
  rw [hp] at hok
  subst hok
  rw [hst]
  simp [hp]

theorem rabbitMonthStep_survived (M : SurvivalModel) (sim : Sim) (i : ℕ) (r : Rng)
    (hi : i < sim.rabbits.length) (hst : (getRabbit sim i).status = true)
    (hok : (check_survival_rate (agedOf (getRabbit sim i)) r).1 = true) :
    rabbitMonthStep M sim i r =
      ({ sim with
           rabbits := sim.rabbits.set i (monthRest M (withFlag (agedOf (getRabbit sim i))) (check_survival_rate (agedOf (getRabbit sim i)) r).2).1 },
       (monthRest M (withFlag (agedOf (getRabbit sim i))) (check_survival_rate (agedOf (getRabbit sim i)) r).2).2.1,
       (monthRest M (withFlag (agedOf (getRabbit sim i))) (check_survival_rate (agedOf (getRabbit sim i)) r).2).2.2) := by
  unfold rabbitMonthStep
  rw [hst]
  simp only [Bool.true_eq_false, if_false]
  have hget1 : getRabbit (modifyRabbit sim i agedOf) i = agedOf (getRabbit sim i) := by
    unfold modifyRabbit getRabbit
    exact getD_set_self _ _ _ _ hi
  have hst1 : (getRabbit (modifyRabbit sim i agedOf) i).status = true := by
    rw [hget1]
    unfold agedOf
    exact hst
  have hok1 : (check_survival_rate (getRabbit (modifyRabbit sim i agedOf) i) r).1 = true := by
    rw [hget1]
    exact hok
  rw [check_survival_surv _ _ _ hst1 hok1, hget1]
  rcases hmr : monthRest M (withFlag (agedOf (getRabbit sim i)))
    (check_survival_rate (agedOf (getRabbit sim i)) r).2 with ⟨rb7, born, r7⟩
  have hget2 : getRabbit
      { modifyRabbit sim i agedOf with
          rabbits := (modifyRabbit sim i agedOf).rabbits.set i (withFlag (agedOf (getRabbit sim i))) } i =
      withFlag (agedOf (getRabbit sim i)) := by
    unfold modifyRabbit getRabbit
    exact getD_set_self _ _ _ _ (by simpa [modifyRabbit] using hi)
  rw [hget2, hmr]
  simp [modifyRabbit, set_set_same]

theorem rabbitMonthStep_killed (M : SurvivalModel) (sim : Sim) (i : ℕ) (r : Rng)
    (hi : i < sim.rabbits.length) (hst : (getRabbit sim i).status = true)
    (hok : (check_survival_rate (agedOf (getRabbit sim i)) r).1 = false) :
    rabbitMonthStep M sim i r =
      ({ sim with
           rabbits := sim.rabbits.set i (monthRest M (withDead (agedOf (getRabbit sim i))) (check_survival_rate (agedOf (getRabbit sim i)) r).2).1,
           free_indices := i :: sim.free_indices,
           dead_rabbit_count := sim.dead_rabbit_count + 1 },
       (monthRest M (withDead (agedOf (getRabbit sim i))) (check_survival_rate (agedOf (getRabbit sim i)) r).2).2.1,
       (monthRest M (withDead (agedOf (getRabbit sim i))) (check_survival_rate (agedOf (getRabbit sim i)) r).2).2.2) := by
  unfold rabbitMonthStep
  rw [hst]
  simp only [Bool.true_eq_false, if_false]
  have hget1 : getRabbit (modifyRabbit sim i agedOf) i = agedOf (getRabbit sim i) := by
    unfold modifyRabbit getRabbit
    exact getD_set_self _ _ _ _ hi
  have hst1 : (getRabbit (modifyRabbit sim i agedOf) i).status = true := by
    rw [hget1]
    unfold agedOf
    exact hst
  have hok1 : (check_survival_rate (getRabbit (modifyRabbit sim i agedOf) i) r).1 = false := by
    rw [hget1]
    exact hok
  rw [check_survival_kill _ _ _ hst1 hok1, hget1]
  rcases hmr : monthRest M (withDead (agedOf (getRabbit sim i)))
    (check_survival_rate (agedOf (getRabbit sim i)) r).2 with ⟨rb7, born, r7⟩
  have hget2 : getRabbit (kill_rabbit (modifyRabbit sim i agedOf) i) i =
      withDead (agedOf (getRabbit sim i)) := by
    unfold kill_rabbit getRabbit
    rw [getD_set_self _ _ _ _ (by simpa [modifyRabbit] using hi)]
    exact congrArg withDead hget1
  rw [hget2, hmr]
  simp [kill_rabbit, modifyRabbit, set_set_same, hget1]

theorem update_survival_rate_shape (M : SurvivalModel) (rb : Rabbit) (r : Rng) :
    ∃ q, (update_survival_rate M rb r).1 =
      { rb with survival_check_flag := false, survival_rate := q } := by
  rcases hq : M.updateRate { rb with survival_check_flag := false } r with ⟨q, r1⟩
  refine ⟨q, ?_⟩
  simp [update_survival_rate, hq]

theorem update_maturity_shape (rb : Rabbit) (r : Rng) :
    (update_maturity rb r).1 = rb ∨
      ((update_maturity rb r).1 = { rb with mature := true, maturity_age := rb.age } ∧
        rb.mature = false) := by
  unfold update_maturity
  split
  · exact Or.inl rfl
  · rename_i hm
    split
    · rcases check_maturity rb.age r with ⟨ok, r1⟩
      cases ok
      · exact Or.inl rfl
      · exact Or.inr ⟨rfl, by simpa using hm⟩
    · exact Or.inl rfl

theorem update_litters_per_year_shape (rb : Rabbit) (r : Rng) :
    ∃ n, (update_litters_per_year rb r).1 = { rb with nb_litters_y := n } := by
  unfold update_litters_per_year
  split
  · rcases generate_litters_per_year r with ⟨n, r1⟩
    exact ⟨n, rfl⟩
  · exact ⟨rb.nb_litters_y, rfl⟩

theorem give_birth_shape (rb : Rabbit) (r : Rng) :
    ∃ m, (give_birth rb r).1 = { rb with pregnant := false, nb_litters := m } := by
  unfold give_birth
  split
  · rcases drawBounded 4 r with ⟨e, r1⟩
    exact ⟨rb.nb_litters + 1, rfl⟩
  · rename_i hp
    refine ⟨rb.nb_litters, ?_⟩
    cases rb
    simp at hp
    simp [hp]

theorem check_pregnancy_shape (rb : Rabbit) (r : Rng) :
    (check_pregnancy rb r).1 = rb ∨
      ((check_pregnancy rb r).1 = { rb with pregnant := true } ∧ rb.sex = 1) := by
  unfold check_pregnancy
  split
  · rename_i hs
    rcases can_be_pregnant_this_month rb r with ⟨ok, r1⟩
    cases ok
    · exact Or.inl rfl
    · exact Or.inr ⟨rfl, hs⟩
  · exact Or.inl rfl

theorem monthRest_pregnant_sex (M : SurvivalModel) (rb : Rabbit) (r : Rng) :
    (monthRest M rb r).1.sex = rb.sex ∧
    ((monthRest M rb r).1.pregnant = true → rb.sex = 1) := by
  unfold monthRest
  rcases h3p : update_survival_rate M rb r with ⟨rb3, r3⟩
  obtain ⟨q, h3⟩ := update_survival_rate_shape M rb r
  rw [h3p] at h3
  rcases h4p : update_maturity rb3 r3 with ⟨rb4, r4⟩
  rcases update_maturity_shape rb3 r3 with h4 | ⟨h4, _⟩ <;> rw [h4p] at h4 <;>
  · rcases h5p : update_litters_per_year rb4 r4 with ⟨rb5, r5⟩
    obtain ⟨n, h5⟩ := update_litters_per_year_shape rb4 r4
    rw [h5p] at h5
    rcases h6p : give_birth rb5 r5 with ⟨rb6, born, r6⟩
    obtain ⟨m, h6⟩ := give_birth_shape rb5 r5
    rw [h6p] at h6
    rcases h7p : check_pregnancy rb6 r6 with ⟨rb7, r7⟩
    rcases check_pregnancy_shape rb6 r6 with h7 | ⟨h7, hs7⟩ <;> rw [h7p] at h7 <;>
      subst h3 h4 h5 h6 h7 <;> simp_all

theorem monthRest_maturity (M : SurvivalModel) (rb : Rabbit) (r : Rng)
    (hQ : rb.mature = false → rb.maturity_age = 0) :
    ((monthRest M rb r).1.mature = false → (monthRest M rb r).1.maturity_age = 0) ∧
    rb.maturity_age ≤ (monthRest M rb r).1.maturity_age := by
  unfold monthRest
  rcases h3p : update_survival_rate M rb r with ⟨rb3, r3⟩
  obtain ⟨q, h3⟩ := update_survival_rate_shape M rb r
  rw [h3p] at h3
  rcases h4p : update_maturity rb3 r3 with ⟨rb4, r4⟩
  rcases update_maturity_shape rb3 r3 with h4 | ⟨h4, h4m⟩ <;> rw [h4p] at h4 <;>
  · rcases h5p : update_litters_per_year rb4 r4 with ⟨rb5, r5⟩
    obtain ⟨n, h5⟩ := update_litters_per_year_shape rb4 r4
    rw [h5p] at h5
    rcases h6p : give_birth rb5 r5 with ⟨rb6, born, r6⟩
    obtain ⟨m, h6⟩ := give_birth_shape rb5 r5
    rw [h6p] at h6
    rcases h7p : check_pregnancy rb6 r6 with ⟨rb7, r7⟩
    rcases check_pregnancy_shape rb6 r6 with h7 | ⟨h7, hs7⟩ <;> rw [h7p] at h7 <;>
      subst h3 h4 h5 h6 h7 <;> rcases hm : rb.mature with _ | _ <;>
        simp_all

theorem getD_set_ne {α : Type} : ∀ (l : List α) (i j : ℕ) (a d : α), i ≠ j →
    (l.set i a).getD j d = l.getD j d
  | [], _, _, _, _, _ => rfl
  | x :: t, 0, 0, a, d, h => absurd rfl h
  | x :: t, 0, j + 1, a, d, _ => rfl
  | x :: t, i + 1, 0, a, d, _ => rfl
  | x :: t, i + 1, j + 1, a, d, h =>
      getD_set_ne t i j a d (fun hij => h (congrArg (· + 1) hij))

theorem getRabbit_status_lt (sim : Sim) (i : ℕ)
    (h : (getRabbit sim i).status = true) : i < sim.rabbits.length := by
  by_contra hle
  push_neg at hle
  have hd : getRabbit sim i = default := by
    unfold getRabbit
    exact List.getD_eq_default _ _ hle
  rw [hd] at h
  exact absurd h (by decide)

theorem rabbitMonthStep_skip (M : SurvivalModel) (sim : Sim) (i : ℕ) (r : Rng)
    (hst : (getRabbit sim i).status = false) :
    rabbitMonthStep M sim i r = (sim, 0, r) := by
  unfold rabbitMonthStep
  rw [hst]
  simp

theorem rabbitMonthStep_P10 (M : SurvivalModel) (sim : Sim) (i : ℕ) (r : Rng)
    (hs : EveryRabbit (fun rb => rb.pregnant = true → rb.sex = 1) sim) :
    EveryRabbit (fun rb => rb.pregnant = true → rb.sex = 1)
      ((rabbitMonthStep M sim i r).1) := by
  rcases hst : (getRabbit sim i).status with _ | _
  · rw [rabbitMonthStep_skip M sim i r hst]
    exact hs
  · have hi := getRabbit_status_lt sim i hst
    rcases hok : (check_survival_rate (agedOf (getRabbit sim i)) r).1 with _ | _
    · rw [rabbitMonthStep_killed M sim i r hi hst hok]
      intro rb hrb
      rcases List.mem_or_eq_of_mem_set hrb with hmem | heq
      · exact hs rb hmem
      · subst heq
        intro hp
        have h := monthRest_pregnant_sex M (withDead (agedOf (getRabbit sim i)))
          (check_survival_rate (agedOf (getRabbit sim i)) r).2
        rw [h.1]
        exact h.2 hp
    · rw [rabbitMonthStep_survived M sim i r hi hst hok]
      intro rb hrb
      rcases List.mem_or_eq_of_mem_set hrb with hmem | heq
      · exact hs rb hmem
      · subst heq
        intro hp
        have h := monthRest_pregnant_sex M (withFlag (agedOf (getRabbit sim i)))
          (check_survival_rate (agedOf (getRabbit sim i)) r).2
        rw [h.1]
        exact h.2 hp

theorem rabbitMonthStep_Q3 (M : SurvivalModel) (sim : Sim) (i : ℕ) (r : Rng)
    (hs : EveryRabbit (fun rb => rb.mature = false → rb.maturity_age = 0) sim) :
    EveryRabbit (fun rb => rb.mature = false → rb.maturity_age = 0)
      ((rabbitMonthStep M sim i r).1) := by
  rcases hst : (getRabbit sim i).status with _ | _
  · rw [rabbitMonthStep_skip M sim i r hst]
    exact hs
  · have hi := getRabbit_status_lt sim i hst
    have hmem0 : getRabbit sim i ∈ sim.rabbits := by
      unfold getRabbit
      rw [List.getD_eq_getElem _ _ hi]
      exact List.getElem_mem hi
    have hQ0 := hs (getRabbit sim i) hmem0
    rcases hok : (check_survival_rate (agedOf (getRabbit sim i)) r).1 with _ | _
    · rw [rabbitMonthStep_killed M sim i r hi hst hok]
      intro rb hrb
      rcases List.mem_or_eq_of_mem_set hrb with hmem | heq
      · exact hs rb hmem
      · subst heq
        exact (monthRest_maturity M (withDead (agedOf (getRabbit sim i)))
          (check_survival_rate (agedOf (getRabbit sim i)) r).2 hQ0).1
    · rw [rabbitMonthStep_survived M sim i r hi hst hok]
      intro rb hrb
      rcases List.mem_or_eq_of_mem_set hrb with hmem | heq
      · exact hs rb hmem
      · subst heq
        exact (monthRest_maturity M (withFlag (agedOf (getRabbit sim i)))
          (check_survival_rate (agedOf (getRabbit sim i)) r).2 hQ0).1

theorem rabbitMonthStep_ma_mono (M : SurvivalModel) (sim : Sim) (i : ℕ) (r : Rng)
    (hs : EveryRabbit (fun rb => rb.mature = false → rb.maturity_age = 0) sim) (j : ℕ) :
    (getRabbit sim j).maturity_age ≤
      (getRabbit ((rabbitMonthStep M sim i r).1) j).maturity_age := by
  rcases hst : (getRabbit sim i).status with _ | _
  · rw [rabbitMonthStep_skip M sim i r hst]
  · have hi := getRabbit_status_lt sim i hst
    have hmem0 : getRabbit sim i ∈ sim.rabbits := by
      unfold getRabbit
      rw [List.getD_eq_getElem _ _ hi]
      exact List.getElem_mem hi
    have hQ0 := hs (getRabbit sim i) hmem0
    by_cases hij : i = j
    · subst hij
      rcases hok : (check_survival_rate (agedOf (getRabbit sim i)) r).1 with _ | _
      · rw [rabbitMonthStep_killed M sim i r hi hst hok]
        have h := (monthRest_maturity M (withDead (agedOf (getRabbit sim i)))
          (check_survival_rate (agedOf (getRabbit sim i)) r).2 hQ0).2
        unfold getRabbit
        rw [getD_set_self _ _ _ _ hi]
        exact h
      · rw [rabbitMonthStep_survived M sim i r hi hst hok]
        have h := (monthRest_maturity M (withFlag (agedOf (getRabbit sim i)))
          (check_survival_rate (agedOf (getRabbit sim i)) r).2 hQ0).2
        unfold getRabbit
        rw [getD_set_self _ _ _ _ hi]
        exact h
    · rcases hok : (check_survival_rate (agedOf (getRabbit sim i)) r).1 with _ | _
      · rw [rabbitMonthStep_killed M sim i r hi hst hok]
        unfold getRabbit
        rw [getD_set_ne _ _ _ _ _ hij]
      · rw [rabbitMonthStep_survived M sim i r hi hst hok]
        unfold getRabbit
        rw [getD_set_ne _ _ _ _ _ hij]

/-! ## Invariant propagation through the loops -/

theorem update_rabbits_loop_inv (P : Rabbit → Prop) (M : SurvivalModel)
    (hstep : ∀ sim i r, EveryRabbit P sim → EveryRabbit P ((rabbitMonthStep M sim i r).1)) :
    ∀ (fuel i born : ℕ) (sim : Sim) (r : Rng), EveryRabbit P sim →
      EveryRabbit P ((update_rabbits_loop M i fuel sim born r).1) := by
  intro fuel
  induction fuel with
  | zero =>
      intro i born sim r hs
      simpa [update_rabbits_loop] using hs
  | succ n ih =>
      intro i born sim r hs
      rw [update_rabbits_loop]
      rcases hq : rabbitMonthStep M sim i r with ⟨sim1, nb, r1⟩
      have h1 : EveryRabbit P sim1 := by
        have := hstep sim i r hs
        rw [hq] at this
        exact this
      exact ih (i + 1) (born + nb) sim1 r1 h1

theorem add_rabbit_inv (P : Rabbit → Prop) (M : SurvivalModel) (sim : Sim) (r : Rng)
    (b : Bool) (rate : ℚ) (age sex : ℕ)
    (hnew : ∀ q, P (init_rabbit_record b q age sex))
    (hs : EveryRabbit P sim) :
    EveryRabbit P ((add_rabbit M sim r b rate age sex).1) := by
  rcases hq : M.addRate rate r with ⟨q, r1⟩
  unfold add_rabbit
  rw [hq]
  cases hf : sim.free_indices with
  | nil =>
      intro rb hrb
      rcases List.mem_append.mp hrb with hmem | hone
      · exact hs rb hmem
      · rw [List.mem_singleton.mp hone]
        exact hnew q
  | cons hd tl =>
      intro rb hrb
      rcases List.mem_or_eq_of_mem_set hrb with hmem | heq
      · exact hs rb hmem
      · rw [heq]
        exact hnew q

theorem create_new_generation_inv (P : Rabbit → Prop) (M : SurvivalModel)
    (hnew : ∀ q age sex, P (init_rabbit_record false q age sex)) :
    ∀ (n : ℕ) (sim : Sim) (r : Rng), EveryRabbit P sim →
      EveryRabbit P ((create_new_generation M sim n r).1) := by
  intro n
  induction n with
  | zero =>
      intro sim r hs
      simpa [create_new_generation] using hs
  | succ m ih =>
      intro sim r hs
      rw [create_new_generation]
      rcases hsx : generate_sex r with ⟨sex, r1⟩
      rcases hadd : add_rabbit M sim r1 false INIT_SRV_RATE 0 sex with ⟨sim1, r2⟩
      have h1 : EveryRabbit P sim1 := by
        have := add_rabbit_inv P M sim r1 false INIT_SRV_RATE 0 sex
          (fun q => hnew q 0 sex) hs
        rw [hadd] at this
        exact this
      have := ih sim1 r2 h1
      simpa [hsx, hadd] using this

theorem update_rabbits_inv (P : Rabbit → Prop) (M : SurvivalModel)
    (hstep : ∀ sim i r, EveryRabbit P sim → EveryRabbit P ((rabbitMonthStep M sim i r).1))
    (hnew : ∀ q age sex, P (init_rabbit_record false q age sex))
    (sim : Sim) (r : Rng) (hs : EveryRabbit P sim) :
    EveryRabbit P ((update_rabbits M sim r).1) := by
  unfold update_rabbits
  rcases hl : update_rabbits_loop M 0 sim.rabbits.length sim 0 r with ⟨sim1, born, r1⟩
  have h1 : EveryRabbit P sim1 := by
    have := update_rabbits_loop_inv P M hstep sim.rabbits.length 0 0 sim r hs
    rw [hl] at this
    exact this
  have := create_new_generation_inv P M hnew born sim1 r1 h1
  simpa [hl] using this

theorem simulate_loop_inv (P : Rabbit → Prop) (M : SurvivalModel)
    (hstep : ∀ sim i r, EveryRabbit P sim → EveryRabbit P ((rabbitMonthStep M sim i r).1))
    (hnew : ∀ q age sex, P (init_rabbit_record false q age sex)) :
    ∀ (fuel m : ℕ) (sim : Sim) (r : Rng) (acc : LoopAcc), EveryRabbit P sim →
      EveryRabbit P ((simulate_loop M fuel m sim r acc).1) := by
  intro fuel
  induction fuel with
  | zero =>
      intro m sim r acc hs
      simpa [simulate_loop] using hs
  | succ n ih =>
      intro m sim r acc hs
      rw [simulate_loop]
      split
      · exact hs
      · rcases hu : update_rabbits M sim r with ⟨sim1, r1⟩
        have h1 : EveryRabbit P sim1 := by
          have := update_rabbits_inv P M hstep hnew sim r hs
          rw [hu] at this
          exact this
        exact ih (m + 1) sim1 r1 _ h1

theorem init_2_super_rabbits_inv (P : Rabbit → Prop) (M : SurvivalModel)
    (sim : Sim) (r : Rng)
    (hnew : ∀ (b : Bool) (q : ℚ) (age sex : ℕ), P (init_rabbit_record b q age sex))
    (hs : EveryRabbit P sim) :
    EveryRabbit P ((init_2_super_rabbits M sim r).1) := by
  unfold init_2_super_rabbits
  rcases h1 : add_rabbit M sim r true 100 9 0 with ⟨sim1, r1⟩
  have hp1 : EveryRabbit P sim1 := by
    have := add_rabbit_inv P M sim r true 100 9 0 (fun q => hnew true q 9 0) hs
    rw [h1] at this
    exact this
  have := add_rabbit_inv P M sim1 r1 true 100 9 1 (fun q => hnew true q 9 1) hp1
  simpa using this

theorem init_starting_population_inv (P : Rabbit → Prop) (M : SurvivalModel)
    (hnew : ∀ (b : Bool) (q : ℚ) (age sex : ℕ), P (init_rabbit_record b q age sex)) :
    ∀ (n : ℕ) (sim : Sim) (r : Rng), EveryRabbit P sim →
      EveryRabbit P ((init_starting_population M sim n r).1) := by
  intro n
  induction n with
  | zero =>
      intro sim r hs
      simpa [init_starting_population] using hs
  | succ m ih =>
      intro sim r hs
      rw [init_starting_population]
      rcases hage : generate_random_age r with ⟨age, r1⟩
      rcases hsx : generate_sex r1 with ⟨sex, r2⟩
      rcases hadd : add_rabbit M sim r2 true ADULT_SRV_RATE age sex with ⟨sim1, r3⟩
      have h1 : EveryRabbit P sim1 := by
        have := add_rabbit_inv P M sim r2 true ADULT_SRV_RATE age sex
          (fun q => hnew true q age sex) hs
        rw [hadd] at this
        exact this
      have := ih sim1 r3 h1
      simpa [hage, hsx, hadd] using this

theorem simulate_inv (P : Rabbit → Prop) (M : SurvivalModel)
    (hstep : ∀ sim i r, EveryRabbit P sim → EveryRabbit P ((rabbitMonthStep M sim i r).1))
    (hnew : ∀ (b : Bool) (q : ℚ) (age sex : ℕ), P (init_rabbit_record b q age sex))
    (months pop : ℕ) (sim : Sim) (r : Rng) (hs : EveryRabbit P sim) :
    EveryRabbit P ((simulate M months pop sim r).2.1) := by
  unfold simulate
  rcases hinit : sim_init_state M pop sim r with ⟨sim1, r1⟩
  have h1 : EveryRabbit P sim1 := by
    unfold sim_init_state at hinit
    split at hinit
    · have := init_2_super_rabbits_inv P M sim r hnew hs
      rw [hinit] at this
      exact this
    · have := init_starting_population_inv P M hnew pop sim r hs
      rw [hinit] at this
      exact this
  rcases hloop : simulate_loop M months 0 sim1 r1 initLoopAcc with ⟨sim2, r2, acc⟩
  have h2 : EveryRabbit P sim2 := by
    have := simulate_loop_inv P M (fun s i rr => hstep s i rr) (fun q age sex => hnew false q age sex)
      months 0 sim1 r1 initLoopAcc h1
    rw [hloop] at this
    exact this
  simpa [hloop] using h2

/-! ## C10 — pregnancy only on agents with sex = 1 -/

/-- C10: in every reachable simulation state, an agent with `pregnant = 1`
has `sex = 1` (the value the data model labels male).  Every newly added
agent starts with `pregnant = 0`; the pregnancy check and the annual
fecundity refresh are identities on agents with `sex ≠ 1`; `give_birth`
does nothing on non-pregnant agents (so births only arise from pregnant —
hence sex-1 — agents); the invariant is preserved by every monthly update
under every survival strategy; and it holds in the final state of every
run started from the zeroed pool. -/
theorem C10_pregnant_implies_sex1 :
    (∀ (b : Bool) (q : ℚ) (age sex : ℕ), (init_rabbit_record b q age sex).pregnant = false) ∧
    (∀ (rb : Rabbit) (r : Rng), rb.sex ≠ 1 →
      check_pregnancy rb r = (rb, r) ∧ update_litters_per_year rb r = (rb, r)) ∧
    (∀ (rb : Rabbit) (r : Rng), rb.pregnant = false → give_birth rb r = (rb, 0, r)) ∧
    (∀ (M : SurvivalModel) (sim : Sim) (r : Rng),
      EveryRabbit (fun rb => rb.pregnant = true → rb.sex = 1) sim →
      EveryRabbit (fun rb => rb.pregnant = true → rb.sex = 1) ((update_rabbits M sim r).1)) ∧
    (∀ (M : SurvivalModel) (months pop : ℕ) (r : Rng),
      EveryRabbit (fun rb => rb.pregnant = true → rb.sex = 1)
        ((simulate M months pop emptySim r).2.1)) := by
  refine ⟨?_, ?_, ?_, ?_, ?_⟩
  · intro b q age sex
    rfl
  · intro rb r hsx
    constructor
    · simp [check_pregnancy, hsx]
    · simp [update_litters_per_year, hsx]
  · intro rb r hp
    simp [give_birth, hp]
  · intro M sim r hs
    exact update_rabbits_inv _ M (fun s i rr => rabbitMonthStep_P10 M s i rr)
      (fun q age sex => by intro h; simp [init_rabbit_record] at h) sim r hs
  · intro M months pop r
    exact simulate_inv _ M (fun s i rr => rabbitMonthStep_P10 M s i rr)
      (fun b q age sex => by intro h; simp [init_rabbit_record] at h)
      months pop emptySim r (fun rb h => absurd h (List.not_mem_nil rb))

/-! ## C3 — maturity_age bookkeeping -/

/-- C3 counterexample: the claim says `maturity_age` is 0 *iff* `mature`
is false.  But `add_rabbit` stores `maturity_age = 0` unconditionally
(line 106), so the slot-0 founder created by `init_2_super_rabbits` is
mature with `maturity_age = 0` — the right-to-left direction of the iff
fails on it. -/
theorem C3_counterexample_founder_mature_with_zero_age :
    ((init_2_super_rabbits staticMethod emptySim rngZero).1.rabbits.getD 0 default).mature
        = true ∧
    ((init_2_super_rabbits staticMethod emptySim rngZero).1.rabbits.getD 0
        default).maturity_age = 0 := by
  decide

/-- C3 amended: `maturity_age` is 0 whenever `mature` is false, and during
an agent's monthly processing its `maturity_age` never decreases (it is
only ever set, by the maturity check, from 0 to the agent's current age;
a slot's value drops back to 0 only when `add_rabbit` recycles the slot
for a brand-new agent).  But every agent created by `add_rabbit` — the two
founders and the randomly-aged initial adults included — starts with
`maturity_age = 0` even when created already mature, so "maturity_age is 0
iff mature is false" fails for initially-mature agents. -/
theorem C3_amended_maturity_age :
    (∀ (b : Bool) (q : ℚ) (age sex : ℕ), (init_rabbit_record b q age sex).maturity_age = 0) ∧
    (∀ (M : SurvivalModel) (sim : Sim) (i : ℕ) (r : Rng),
      EveryRabbit (fun rb => rb.mature = false → rb.maturity_age = 0) sim →
      EveryRabbit (fun rb => rb.mature = false → rb.maturity_age = 0)
          ((rabbitMonthStep M sim i r).1) ∧
        ∀ j, (getRabbit sim j).maturity_age ≤
          (getRabbit ((rabbitMonthStep M sim i r).1) j).maturity_age) ∧
    (∀ (M : SurvivalModel) (months pop : ℕ) (r : Rng),
      EveryRabbit (fun rb => rb.mature = false → rb.maturity_age = 0)
        ((simulate M months pop emptySim r).2.1)) := by
  refine ⟨?_, ?_, ?_⟩
  · intro b q age sex
    rfl
  · intro M sim i r hs
    exact ⟨rabbitMonthStep_Q3 M sim i r hs, rabbitMonthStep_ma_mono M sim i r hs⟩
  · intro M months pop r
    exact simulate_inv _ M (fun s i rr => rabbitMonthStep_Q3 M s i rr)
      (fun b q age sex => by intro h; rfl)
      months pop emptySim r (fun rb h => absurd h (List.not_mem_nil rb))

/-! ## C1 — processing of an agent whose survival draw fails -/

/-- Steps 3-7 of the monthly state machine on an agent that is mature,
male-labelled, pregnant, at its last allowed litter, and away from a
12-month maturity anniversary: the survival-rate refresh, maturity check
and fecundity refresh change nothing relevant, the birth event fires
(clearing the pregnancy, counting the litter and emitting `3 + bounded(4)`
newborns), and the pregnancy check declines without drawing.  Stated for an
arbitrary agent record — in particular one just killed, since none of the
five steps re-tests `status`. -/
theorem monthRest_static_pregnant (rb : Rabbit) (r2 : Rng)
    (hmat : rb.mature = true) (hsex : rb.sex = 1) (hpreg : rb.pregnant = true)
    (hlit : rb.nb_litters_y = rb.nb_litters + 1)
    (hmod : ((rb.age : ℤ) - rb.maturity_age).tmod 12 ≠ 0) :
    (monthRest staticMethod rb r2).1.status = rb.status ∧
    (monthRest staticMethod rb r2).1.pregnant = false ∧
    (monthRest staticMethod rb r2).1.nb_litters = rb.nb_litters + 1 ∧
    (monthRest staticMethod rb r2).2.1 = 3 + r2.nats r2.k % 4 := by
  unfold monthRest
  rw [update_survival_rate_static_eq]
  simp [update_maturity, update_litters_per_year, give_birth, check_pregnancy,
    can_be_pregnant_this_month, drawBounded, hmat, hsex, hpreg, hlit, hmod]

/-- C1 amended: in a monthly update under the static strategy, when a
processed alive agent's survival draw fails (`u*100 > survival_rate`), the
agent is killed via the pool's `kill` operation (slot dead, index pushed on
the free list, death counted) — but the subsequent per-agent steps of that
month still execute for the killed agent: shown here for an agent that is
pregnant, mature, male-labelled, at its last allowed litter and away from
a 12-month anniversary, whose birth event still fires after death — the
litter of `3 + bounded(4)` newborns is emitted and `nb_litters` is
incremented on the corpse.  Only the next month's pass skips the slot. -/
theorem C1_amended_killed_agent_still_processed (sim : Sim) (i : ℕ) (r : Rng)
    (hi : i < sim.rabbits.length)
    (hst : (getRabbit sim i).status = true)
    (hflag : (getRabbit sim i).survival_check_flag = false)
    (hdraw : r.reals r.k * 100 > (getRabbit sim i).survival_rate)
    (hpreg : (getRabbit sim i).pregnant = true)
    (hmat : (getRabbit sim i).mature = true)
    (hsex : (getRabbit sim i).sex = 1)
    (hlit : (getRabbit sim i).nb_litters_y = (getRabbit sim i).nb_litters + 1)
    (hmod : (((getRabbit sim i).age : ℤ) + 1 - (getRabbit sim i).maturity_age).tmod 12 ≠ 0) :
    (rabbitMonthStep staticMethod sim i r).2.1 = 3 + r.nats (r.k + 1) % 4 ∧
    (getRabbit (rabbitMonthStep staticMethod sim i r).1 i).status = false ∧
    (getRabbit (rabbitMonthStep staticMethod sim i r).1 i).pregnant = false ∧
    (getRabbit (rabbitMonthStep staticMethod sim i r).1 i).nb_litters =
      (getRabbit sim i).nb_litters + 1 ∧
    (rabbitMonthStep staticMethod sim i r).1.free_indices = i :: sim.free_indices ∧
    (rabbitMonthStep staticMethod sim i r).1.dead_rabbit_count =
      sim.dead_rabbit_count + 1 := by
  have hok : (check_survival_rate (agedOf (getRabbit sim i)) r).1 = false := by
    simp [check_survival_rate, agedOf, drawReal, hflag]
    linarith
  have hr2 : (check_survival_rate (agedOf (getRabbit sim i)) r).2 = { r with k := r.k + 1 } := by
    simp [check_survival_rate, agedOf, drawReal, hflag]
  have hmod2 : (((withDead (agedOf (getRabbit sim i))).age : ℤ) -
      (withDead (agedOf (getRabbit sim i))).maturity_age).tmod 12 ≠ 0 := by
    simpa [withDead, agedOf, Nat.cast_add] using hmod
  have h := monthRest_static_pregnant (withDead (agedOf (getRabbit sim i)))
    { r with k := r.k + 1 } hmat hsex hpreg hlit hmod2
  rw [rabbitMonthStep_killed staticMethod sim i r hi hst hok, hr2]
  refine ⟨h.2.2.2, ?_, ?_, ?_, rfl, rfl⟩
  · show ((sim.rabbits.set i _).getD i default).status = false
    rw [getD_set_self _ _ _ _ hi]
    exact h.1
  · show ((sim.rabbits.set i _).getD i default).pregnant = false
    rw [getD_set_self _ _ _ _ hi]
    exact h.2.1
  · show ((sim.rabbits.set i _).getD i default).nb_litters = _
    rw [getD_set_self _ _ _ _ hi]
    exact h.2.2.1

/-- Witness for the amended C1 statement at the concrete one-agent pool
`simC1` and stream `rngC1` (draw 0.9, so 90 > 50 fails the check): the
killed agent still delivers a litter of 3. -/
theorem C1_amended_witness :
    (rabbitMonthStep staticMethod simC1 0 rngC1).2.1 = 3 + rngC1.nats (rngC1.k + 1) % 4 ∧
    (getRabbit (rabbitMonthStep staticMethod simC1 0 rngC1).1 0).status = false ∧
    (getRabbit (rabbitMonthStep staticMethod simC1 0 rngC1).1 0).pregnant = false ∧
    (getRabbit (rabbitMonthStep staticMethod simC1 0 rngC1).1 0).nb_litters =
      (getRabbit simC1 0).nb_litters + 1 ∧
    (rabbitMonthStep staticMethod simC1 0 rngC1).1.free_indices = 0 :: simC1.free_indices ∧
    (rabbitMonthStep staticMethod simC1 0 rngC1).1.dead_rabbit_count =
      simC1.dead_rabbit_count + 1 :=
  C1_amended_killed_agent_still_processed simC1 0 rngC1 (by decide) (by decide) (by decide)
    (by decide) (by decide) (by decide) (by decide) (by decide) (by decide)

/-- C1 counterexample: the claim says that once the survival draw fails
the agent is killed *and no further steps run for it this month*.  In the
one-agent pool `simC1` (a pregnant agent with survival rate 50) under the
stream `rngC1` (every draw 0.9), the draw fails (90 > 50) and the agent is
killed — yet after the full monthly update the pool holds 3 rabbits: the
corpse's slot was recycled by one of its own newborns and two more were
appended, so the birth event of the killed agent did execute.  Under the
claim the pool would still hold exactly 1 rabbit and no newborns. -/
theorem C1_counterexample_dead_agent_still_gives_birth :
    (9 : ℚ) / 10 * 100 > 50 ∧
    (update_rabbits staticMethod simC1 rngC1).1.dead_rabbit_count = 1 ∧
    (update_rabbits staticMethod simC1 rngC1).1.rabbits.length = 3 := by
  refine ⟨by norm_num, by decide, by decide⟩

/-! ## C8 — the extinction stop -/

/-- A monthly update of a pool whose agents are all dead is the identity:
every slot is skipped and no newborn is created. -/
theorem rabbitMonthStep_all_dead (M : SurvivalModel) (sim : Sim) (i : ℕ) (r : Rng)
    (hd : ∀ rb ∈ sim.rabbits, rb.status = false) :
    rabbitMonthStep M sim i r = (sim, 0, r) := by
  rcases hst : (getRabbit sim i).status with _ | _
  · exact rabbitMonthStep_skip M sim i r hst
  · exfalso
    have hi := getRabbit_status_lt sim i hst
    have hmem : getRabbit sim i ∈ sim.rabbits := by
      unfold getRabbit
      rw [List.getD_eq_getElem _ _ hi]
      exact List.getElem_mem hi
    rw [hd _ hmem] at hst
    exact Bool.false_ne_true hst

/-- The per-agent loop of `update_rabbits` leaves an all-dead pool
untouched and emits no births. -/
theorem update_rabbits_loop_all_dead (M : SurvivalModel) (sim : Sim) (r : Rng)
    (hd : ∀ rb ∈ sim.rabbits, rb.status = false) :
    ∀ (fuel i born : ℕ), update_rabbits_loop M i fuel sim born r = (sim, born, r) := by
  intro fuel
  induction fuel with
  | zero =>
      intro i born
      rfl
  | succ n ih =>
      intro i born
      rw [update_rabbits_loop, rabbitMonthStep_all_dead M sim i r hd]
      simpa using ih (i + 1) born

/-- `update_rabbits` on an all-dead pool is the identity: the live count
never rises after extinction. -/
theorem update_rabbits_all_dead (M : SurvivalModel) (sim : Sim) (r : Rng)
    (hd : ∀ rb ∈ sim.rabbits, rb.status = false) :
    update_rabbits M sim r = (sim, r) := by
  unfold update_rabbits
  rw [update_rabbits_loop_all_dead M sim r hd]
  rfl

/-- Characterization of the month loop of `simulate`: starting at month
`m` with `fuel` months left and `actual_months = m`, if some reachable
month within the fuel is extinct then the loop stops at the first such
month, recording it in both `actual_months` and `extinction_month`;
otherwise it runs all the fuel and `actual_months` ends at `m + fuel`. -/
theorem simulate_loop_months (M : SurvivalModel) :
    ∀ (fuel m : ℕ) (sim : Sim) (r : Rng) (acc : LoopAcc),
      acc.actual_months = m →
      (∀ h : ∃ j, j < fuel ∧ isExtinct (monthIter M j (sim, r)).1,
        (simulate_loop M fuel m sim r acc).2.2.actual_months = m + Nat.find h ∧
        (simulate_loop M fuel m sim r acc).2.2.extinction_month = m + Nat.find h) ∧
      ((¬ ∃ j, j < fuel ∧ isExtinct (monthIter M j (sim, r)).1) →
        (simulate_loop M fuel m sim r acc).2.2.actual_months = m + fuel) := by
  intro fuel
  induction fuel with
  | zero =>
      intro m sim r acc hacc
      constructor
      · intro h
        rcases h with ⟨j, hj, _⟩
        exact absurd hj (Nat.not_lt_zero j)
      · intro _
        simpa [simulate_loop] using hacc
  | succ n ih =>
      intro m sim r acc hacc
      rw [simulate_loop]
      by_cases hext : sim.free_indices.length = sim.rabbits.length
      · rw [if_pos hext]
        constructor
        · intro h
          have hfind : Nat.find h = 0 := by
            rw [Nat.find_eq_zero h]
            exact ⟨Nat.succ_pos n, hext⟩
          rw [hfind]
          exact ⟨rfl, rfl⟩
        · intro hno
          exact absurd ⟨0, Nat.succ_pos n, hext⟩ hno
      · rw [if_neg hext]
        rcases hu : update_rabbits M sim r with ⟨sim1, r1⟩
        have hshift : ∀ j, monthIter M (j + 1) (sim, r) = monthIter M j (sim1, r1) := by
          intro j
          show monthIter M j (update_rabbits M sim r) = _
          rw [hu]
        have hIH := ih (m + 1) sim1 r1 (acc_month_update acc m (aliveCount sim)) rfl
        constructor
        · intro h
          have hne0 : ¬ (0 < n + 1 ∧ isExtinct (monthIter M 0 (sim, r)).1) := by
            intro hc
            exact hext hc.2
          have h1 : ∃ j, j < n ∧ isExtinct (monthIter M j (sim1, r1)).1 := by
            rcases h with ⟨j, hj, hx⟩
            cases j with
            | zero => exact absurd ⟨hj, hx⟩ hne0
            | succ k =>
                refine ⟨k, Nat.lt_of_succ_lt_succ hj, ?_⟩
                rw [← hshift k]
                exact hx
          have hfind : Nat.find h = Nat.find h1 + 1 := by
            rw [Nat.find_eq_iff h]
            constructor
            · have hf := Nat.find_spec h1
              refine ⟨Nat.succ_lt_succ hf.1, ?_⟩
              rw [hshift (Nat.find h1)]
              exact hf.2
            · intro k hk
              cases k with
              | zero => exact hne0
              | succ j =>
                  intro hc
                  have hjlt : j < Nat.find h1 := Nat.lt_of_succ_lt_succ hk
                  have := Nat.find_min h1 hjlt
                  apply this
                  refine ⟨Nat.lt_of_succ_lt_succ hc.1, ?_⟩
                  rw [← hshift j]
                  exact hc.2
          rw [hfind]
          have := hIH.1 h1
          refine ⟨?_, ?_⟩
          · rw [this.1]
            omega
          · rw [this.2]
            omega
        · intro hno
          have h1 : ¬ ∃ j, j < n ∧ isExtinct (monthIter M j (sim1, r1)).1 := by
            intro hc
            rcases hc with ⟨j, hj, hx⟩
            apply hno
            refine ⟨j + 1, Nat.succ_lt_succ hj, ?_⟩
            rw [hshift j]
            exact hx
          rw [hIH.2 h1]
          omega

/-- `months_simulated` and `extinction_month` of a run are the
`actual_months` and `extinction_month` the month loop accumulated. -/
theorem simulate_result_of_loop (M : SurvivalModel) (months pop : ℕ) (sim : Sim) (r : Rng) :
    (simulate M months pop sim r).1.months_simulated =
      (simulate_loop M months 0 (sim_init_state M pop sim r).1
        (sim_init_state M pop sim r).2 initLoopAcc).2.2.actual_months ∧
    (simulate M months pop sim r).1.extinction_month =
      (simulate_loop M months 0 (sim_init_state M pop sim r).1
        (sim_init_state M pop sim r).2 initLoopAcc).2.2.extinction_month := by
  unfold simulate
  rcases hp : sim_init_state M pop sim r with ⟨sim1, r1⟩
  rcases hl : simulate_loop M months 0 sim1 r1 initLoopAcc with ⟨sim2, r2, acc⟩
  simp [hp, hl]

/-- C8: a run halts at the first month at which the live count is zero.
Writing `E j` for the extinction test (`free_count == rabbit_count`, i.e.
live count 0) on the state after `j` monthly updates of the initialized
population: (1) once every agent is dead a monthly update changes nothing,
so the live count can never rise again; (2) when extinction occurs within
the horizon, the run stops at the first extinct month `Nat.find h`, which
is recorded both as `months_simulated` and as `extinction_month`, no
earlier month being extinct; (3) without extinction within the horizon the
run simulates all `months` months and reports that. -/
theorem C8_extinction_stop :
    (∀ (M : SurvivalModel) (sim : Sim) (r : Rng),
      (∀ rb ∈ sim.rabbits, rb.status = false) → update_rabbits M sim r = (sim, r)) ∧
    (∀ (M : SurvivalModel) (months pop : ℕ) (sim : Sim) (r : Rng)
      (h : ∃ j, j < months ∧ isExtinct (monthIter M j (sim_init_state M pop sim r)).1),
      (simulate M months pop sim r).1.months_simulated = Nat.find h ∧
      (simulate M months pop sim r).1.extinction_month = Nat.find h ∧
      isExtinct (monthIter M (Nat.find h) (sim_init_state M pop sim r)).1 ∧
      (∀ k, k < Nat.find h → ¬ isExtinct (monthIter M k (sim_init_state M pop sim r)).1)) ∧
    (∀ (M : SurvivalModel) (months pop : ℕ) (sim : Sim) (r : Rng),
      (¬ ∃ j, j < months ∧ isExtinct (monthIter M j (sim_init_state M pop sim r)).1) →
      (simulate M months pop sim r).1.months_simulated = months) := by
  refine ⟨?_, ?_, ?_⟩
  · intro M sim r hd
    exact update_rabbits_all_dead M sim r hd
  · intro M months pop sim r h
    have key := simulate_loop_months M months 0 (sim_init_state M pop sim r).1
      (sim_init_state M pop sim r).2 initLoopAcc rfl
    have hk := key.1 h
    refine ⟨?_, ?_, Nat.find_spec h |>.2, fun k hk2 => fun hx => Nat.find_min h hk2 ?_⟩
    · rw [(simulate_result_of_loop M months pop sim r).1, hk.1, Nat.zero_add]
    · rw [(simulate_result_of_loop M months pop sim r).2, hk.2, Nat.zero_add]
    · refine ⟨lt_trans hk2 (Nat.find_spec h).1, hx⟩
  · intro M months pop sim r hno
    have key := simulate_loop_months M months 0 (sim_init_state M pop sim r).1
      (sim_init_state M pop sim r).2 initLoopAcc rfl
    rw [(simulate_result_of_loop M months pop sim r).1, key.2 hno, Nat.zero_add]
